import Mathlib

/-!
Shallow embedding of the Classic-Pong simulation engine (pong_game.py).

Modelling conventions:
* Python ints are `Int`; Python floats are `Rat`.  Ball vertical position and
  vertical velocity become floats after a paddle collision (the deflection
  formula divides by the paddle height), so they are embedded as `Rat`;
  horizontal ball position and velocity are only ever assigned ints, so they
  stay `Int`.
* `int(x)` in Python truncates toward zero; `pyInt` below does the same on
  `Rat`.  For every product the code feeds to `int(...)` (`6*0.8`, `4*0.8`,
  `6*1.0`, `4*1.0`, `6*1.3`, `4*1.3`, `7*0.5`, `7*0.8`, `7*1.2`) the binary
  floating-point evaluation and the exact rational evaluation truncate to the
  same integer, so the rational embedding is exact here.
* `paddle.width`, `paddle.height`, `ball.size` and the base ball speeds are
  assigned once in the constructors from the module constants and never
  mutated, so they are embedded as the constants themselves.
* Randomness (`random.choice`, `random.random`) is embedded by passing the
  drawn value as an explicit argument.
* `pygame.Rect` stores truncated-int coordinates; `colliderect` is true iff
  the rectangles strictly overlap on both axes (touching edges do not count).
-/

namespace Pong

/-- Game constants from pong_game.py lines 11-18. -/
def WINDOW_WIDTH : Int := 800

def WINDOW_HEIGHT : Int := 600

def PADDLE_WIDTH : Int := 15

def PADDLE_HEIGHT : Int := 90

def BALL_SIZE : Int := 15

def PADDLE_SPEED : Int := 7

def BALL_SPEED_X : Int := 6

def BALL_SPEED_Y : Int := 4

/-- The three difficulty names of DIFFICULTY_SETTINGS. -/
inductive Difficulty
  | easy
  | medium
  | hard
deriving DecidableEq, Repr

/-- DIFFICULTY_SETTINGS[d]['ball_speed_multiplier'] (0.8 / 1.0 / 1.3). -/
def ball_speed_multiplier : Difficulty → Rat
  | Difficulty.easy => 8/10
  | Difficulty.medium => 1
  | Difficulty.hard => 13/10

/-- DIFFICULTY_SETTINGS[d]['ai_speed'] (0.5 / 0.8 / 1.2). -/
def ai_speed : Difficulty → Rat
  | Difficulty.easy => 1/2
  | Difficulty.medium => 8/10
  | Difficulty.hard => 12/10

/-- DIFFICULTY_SETTINGS[d]['ai_reaction'] (0.6 / 0.8 / 0.95). -/
def ai_reaction : Difficulty → Rat
  | Difficulty.easy => 6/10
  | Difficulty.medium => 8/10
  | Difficulty.hard => 95/100

/-- Python `int(q)`: truncation toward zero. -/
def pyInt (q : Rat) : Int :=
  if 0 ≤ q then ⌊q⌋ else ⌈q⌉

/-- Paddle state: position and current speed (pong_game.py lines 50-59).
`width` and `height` are the constants PADDLE_WIDTH / PADDLE_HEIGHT. -/
structure Paddle where
  x : Int
  y : Int
  speed : Int
deriving DecidableEq, Repr

/-- Paddle.move_up (lines 61-65): a guarded, unclamped step of `speed`. -/
def Paddle.move_up (p : Paddle) : Paddle :=
  if p.y > 0 then { p with y := p.y - p.speed } else p

/-- Paddle.move_down (lines 67-71): a guarded, unclamped step of `speed`. -/
def Paddle.move_down (p : Paddle) : Paddle :=
  if p.y < WINDOW_HEIGHT - PADDLE_HEIGHT then { p with y := p.y + p.speed } else p

/-- Ball state (lines 77-94).  `size` is the constant BALL_SIZE; the base
speeds are the constants BALL_SPEED_X / BALL_SPEED_Y. -/
structure Ball where
  x : Int
  y : Rat
  speed_x : Int
  speed_y : Rat
deriving DecidableEq, Repr

/-- Ball.set_difficulty (lines 96-100): both components are reassigned to
`int(base_speed * multiplier)`, discarding their previous values and signs. -/
def Ball.set_difficulty (b : Ball) (d : Difficulty) : Ball :=
  { b with
    speed_x := pyInt ((BALL_SPEED_X : Rat) * ball_speed_multiplier d)
    speed_y := (pyInt ((BALL_SPEED_Y : Rat) * ball_speed_multiplier d) : Int) }

/-- Ball.move (lines 102-112): advance by the velocity, then negate the
vertical velocity once when the new y is at or past a horizontal wall. -/
def Ball.move (b : Ball) : Ball :=
  let x := b.x + b.speed_x
  let y := b.y + b.speed_y
  let sy := if y ≤ 0 ∨ y ≥ ((WINDOW_HEIGHT - BALL_SIZE : Int) : Rat) then -b.speed_y else b.speed_y
  { b with x := x, y := y, speed_y := sy }

/-- Ball.reset (lines 114-126): recenter, reapply the difficulty speeds, then
flip the sign of each component according to the two `random.choice` draws
(`true` keeps the value, `false` negates it, as in the source). -/
def Ball.reset (b : Ball) (d : Difficulty) (keepX keepY : Bool) : Ball :=
  let b₁ : Ball := { b with
    x := WINDOW_WIDTH / 2 - BALL_SIZE / 2
    y := ((WINDOW_HEIGHT / 2 - BALL_SIZE / 2 : Int) : Rat) }
  let b₂ := b₁.set_difficulty d
  { b₂ with
    speed_x := if keepX then b₂.speed_x else -b₂.speed_x
    speed_y := if keepY then b₂.speed_y else -b₂.speed_y }

/-- pygame Rect coordinates of the ball: `rect.x = x`, `rect.y = int(y)`
(kept in sync by Ball.move / Ball.reset before every collision check). -/
def Ball.rectY (b : Ball) : Int := pyInt b.y

/-- `ball.rect.colliderect(paddle.rect)`: strict overlap of the two
axis-aligned boxes (touching edges do not collide), on truncated-int
coordinates, with the constant sizes 15×15 (ball) and 15×90 (paddle). -/
def collides (b : Ball) (p : Paddle) : Bool :=
  decide (b.x < p.x + PADDLE_WIDTH) && decide (b.x + BALL_SIZE > p.x) &&
    decide (b.rectY < p.y + PADDLE_HEIGHT) && decide (b.rectY + BALL_SIZE > p.y)

/-- The deflection formula of lines 354-355 / 362-363:
`(hit_pos - 0.5) * 8` with `hit_pos = (ball.y - paddle.y) / paddle.height`,
paddle.height being the constant 90.  `hit_pos` uses the float ball.y, not
the truncated rect coordinate, and is not clamped to [0, 1]. -/
def hit_deflect (ballY : Rat) (paddleY : Int) : Rat :=
  ((ballY - (paddleY : Rat)) / (PADDLE_HEIGHT : Rat) - 1/2) * 8

/-- The player-paddle collision response of lines 349-355: if the ball box
overlaps the paddle box and the ball moves left (speed_x < 0), negate
speed_x and replace speed_y by the deflection; otherwise no change. -/
def player_bounce (b : Ball) (p : Paddle) : Ball :=
  if collides b p ∧ b.speed_x < 0 then
    { b with speed_x := -b.speed_x, speed_y := hit_deflect b.y p.y }
  else b

/-- The AI-paddle collision response of lines 357-363: same with the
opposite velocity gate (speed_x > 0). -/
def ai_bounce (b : Ball) (p : Paddle) : Ball :=
  if collides b p ∧ b.speed_x > 0 then
    { b with speed_x := -b.speed_x, speed_y := hit_deflect b.y p.y }
  else b

/-- AIPlayer.update (lines 213-225).  `r` is the `random.random()` draw;
`reaction` is the profile's reaction chance.  The paddle center uses the
int division `height // 2 = 45`; the ball center uses the float y plus
`size // 2 = 7`. -/
def ai_update (p : Paddle) (b : Ball) (reaction r : Rat) : Paddle :=
  let paddle_center : Int := p.y + PADDLE_HEIGHT / 2
  let ball_center : Rat := b.y + ((BALL_SIZE / 2 : Int) : Rat)
  if b.speed_x > 0 then
    if r < reaction then
      if (paddle_center : Rat) < ball_center - 15 then p.move_down
      else if (paddle_center : Rat) > ball_center + 15 then p.move_up
      else p
    else p
  else p

/-- ScoreBoard counters (lines 227-232). -/
structure ScoreBoard where
  player_score : Nat
  ai_score : Nat
deriving DecidableEq, Repr

/-- ScoreBoard.update_score (lines 237-242). -/
def ScoreBoard.update_score (s : ScoreBoard) (player_scored : Bool) : ScoreBoard :=
  if player_scored then { s with player_score := s.player_score + 1 }
  else { s with ai_score := s.ai_score + 1 }

/-- The PongGame session state: 'menu' or 'playing'. -/
inductive GState
  | menu
  | playing
deriving DecidableEq, Repr

/-- The mutable PongGame fields the simulation touches (lines 270-293). -/
structure GameState where
  game_state : GState
  difficulty : Difficulty
  player_paddle : Paddle
  ai_paddle : Paddle
  ball : Ball
  scoreboard : ScoreBoard
deriving DecidableEq, Repr

/-- The scoring step of update_game_logic (lines 365-375): an if/elif on the
ball's horizontal position; `keepX/keepY` are the reset's random draws. -/
def scoring_step (g : GameState) (keepX keepY : Bool) : GameState :=
  if g.ball.x < 0 then
    { g with scoreboard := g.scoreboard.update_score false
             ball := g.ball.reset g.difficulty keepX keepY }
  else if g.ball.x > WINDOW_WIDTH then
    { g with scoreboard := g.scoreboard.update_score true
             ball := g.ball.reset g.difficulty keepX keepY }
  else g

/-- PongGame.update_game_logic (lines 340-375): ball move, AI move, the two
paddle-collision checks in order, then scoring.  `rAI` is the AI's random
draw, `keepX/keepY` those of a potential reset. -/
def update_game_logic (g : GameState) (rAI : Rat) (keepX keepY : Bool) : GameState :=
  let ball := g.ball.move
  let aiP := ai_update g.ai_paddle ball (ai_reaction g.difficulty) rAI
  let ball := player_bounce ball g.player_paddle
  let ball := ai_bounce ball aiP
  scoring_step { g with ball := ball, ai_paddle := aiP } keepX keepY

/-- PongGame.start_game (lines 310-321): set the difficulty, enter the
playing state, reapply the profile to the ball, reset the ball, reapply the
profile to the AI (which rescales the AI paddle's speed,
`int(PADDLE_SPEED * ai_speed)`), and zero both scores. -/
def start_game (g : GameState) (d : Difficulty) (keepX keepY : Bool) : GameState :=
  { g with
    difficulty := d
    game_state := GState.playing
    ball := (g.ball.set_difficulty d).reset d keepX keepY
    ai_paddle := { g.ai_paddle with speed := pyInt ((PADDLE_SPEED : Rat) * ai_speed d) }
    scoreboard := { player_score := 0, ai_score := 0 } }

/-- The initial player paddle: Paddle(30, WINDOW_HEIGHT//2 - PADDLE_HEIGHT//2)
(line 286), so y = 255, with the initial speed PADDLE_SPEED = 7. -/
def initial_player_paddle : Paddle :=
  { x := 30, y := WINDOW_HEIGHT / 2 - PADDLE_HEIGHT / 2, speed := PADDLE_SPEED }

/-- A single paddle intent, for reasoning about move sequences. -/
inductive PMove
  | up
  | down
deriving DecidableEq, Repr

/-- Apply one move intent. -/
def apply_move (p : Paddle) : PMove → Paddle
  | PMove.up => p.move_up
  | PMove.down => p.move_down

/-- Apply a sequence of move intents, oldest first. -/
def apply_moves (p : Paddle) : List PMove → Paddle
  | [] => p
  | m :: ms => apply_moves (apply_move p m) ms

/-! ## Theorems -/

/-- move_up never changes the speed field. -/
theorem Paddle.move_up_speed (p : Paddle) : p.move_up.speed = p.speed := by
  unfold Paddle.move_up; split <;> rfl

/-- move_down never changes the speed field. -/
theorem Paddle.move_down_speed (p : Paddle) : p.move_down.speed = p.speed := by
  unfold Paddle.move_down; split <;> rfl

/-- The y-value of move_up as a conditional expression. -/
theorem Paddle.move_up_y (p : Paddle) :
    p.move_up.y = if p.y > 0 then p.y - p.speed else p.y := by
  unfold Paddle.move_up; split <;> rfl

/-- The y-value of move_down as a conditional expression. -/
theorem Paddle.move_down_y (p : Paddle) :
    p.move_down.y =
      if p.y < WINDOW_HEIGHT - PADDLE_HEIGHT then p.y + p.speed else p.y := by
  unfold Paddle.move_down; split <;> rfl

/-- A single guarded move keeps positionY strictly inside the widened band
(-speed, fieldHeight - height + speed). -/
theorem apply_move_band (p : Paddle) (m : PMove) (hs : 0 < p.speed)
    (h1 : -p.speed < p.y) (h2 : p.y < WINDOW_HEIGHT - PADDLE_HEIGHT + p.speed) :
    -p.speed < (apply_move p m).y ∧
      (apply_move p m).y < WINDOW_HEIGHT - PADDLE_HEIGHT + p.speed := by
  cases m
  · rw [show apply_move p PMove.up = p.move_up from rfl, Paddle.move_up_y]
    split <;> omega
  · rw [show apply_move p PMove.down = p.move_down from rfl, Paddle.move_down_y]
    split <;> omega

/-- The widened band is preserved by any move sequence, and the speed field
is untouched. -/
theorem apply_moves_band (ms : List PMove) (p : Paddle) (hs : 0 < p.speed)
    (h1 : -p.speed < p.y) (h2 : p.y < WINDOW_HEIGHT - PADDLE_HEIGHT + p.speed) :
    (apply_moves p ms).speed = p.speed ∧
      -p.speed < (apply_moves p ms).y ∧
      (apply_moves p ms).y < WINDOW_HEIGHT - PADDLE_HEIGHT + p.speed := by
  induction ms generalizing p with
  | nil => exact ⟨rfl, h1, h2⟩
  | cons m ms ih =>
    have hspeed : (apply_move p m).speed = p.speed := by
      cases m
      · exact Paddle.move_up_speed p
      · exact Paddle.move_down_speed p
    have hband := apply_move_band p m hs h1 h2
    have hrec := ih (apply_move p m) (hspeed ▸ hs) (hspeed ▸ hband.1) (hspeed ▸ hband.2)
    exact ⟨hrec.1.trans hspeed, hspeed ▸ hrec.2.1, hspeed ▸ hrec.2.2⟩

set_option maxRecDepth 4000 in
/-- C1: the spec claims `0 ≤ positionY ≤ fieldHeight − height` is invariant
because moveUp clamps at 0 and moveDown clamps at the bottom.  The code only
guards (`if self.y > 0: self.y -= self.speed`) and never clamps: from the
initial player paddle (y = 255, speed = 7), 37 consecutive move_up calls —
each taken with its guard satisfied — drive positionY to −4, strictly below
0, contradicting both the claim and move_up's own docstring ("ensuring it
stays within screen bounds"). -/
theorem C1_move_up_escapes_lower_bound :
    (Paddle.move_up^[37] initial_player_paddle).y = -4 ∧
      ¬ (0 ≤ (Paddle.move_up^[37] initial_player_paddle).y) := by
  constructor <;> decide

/-- C10: starting from an integer position inside [0, fieldHeight − height]
with positive speed, every sequence of guarded moves keeps positionY
strictly inside (−speed, fieldHeight − height + speed); moreover each move
either leaves the position unchanged or shifts it by exactly `speed` (there
is no partial clamped step). -/
theorem C10_paddle_widened_band (p : Paddle) (ms : List PMove) (hs : 0 < p.speed)
    (h0 : 0 ≤ p.y) (h1 : p.y ≤ WINDOW_HEIGHT - PADDLE_HEIGHT) :
    (-p.speed < (apply_moves p ms).y ∧
      (apply_moves p ms).y < WINDOW_HEIGHT - PADDLE_HEIGHT + p.speed) ∧
    (∀ q : Paddle, (q.move_up.y = q.y ∨ q.move_up.y = q.y - q.speed) ∧
      (q.move_down.y = q.y ∨ q.move_down.y = q.y + q.speed)) := by
  constructor
  · have h := apply_moves_band ms p hs (by omega) (by omega)
    exact ⟨h.2.1, h.2.2⟩
  · intro q
    constructor
    · unfold Paddle.move_up; split
      · right; rfl
      · left; rfl
    · unfold Paddle.move_down; split
      · right; rfl
      · left; rfl

/-- Witness for C10 at the initial player paddle and a concrete two-move
sequence. -/
theorem C10_paddle_widened_band_witness :
    -initial_player_paddle.speed <
        (apply_moves initial_player_paddle [PMove.up, PMove.down]).y ∧
      (apply_moves initial_player_paddle [PMove.up, PMove.down]).y <
        WINDOW_HEIGHT - PADDLE_HEIGHT + initial_player_paddle.speed :=
  (C10_paddle_widened_band initial_player_paddle [PMove.up, PMove.down]
    (by decide) (by decide) (by decide)).1

/-- Evaluation rule for pyInt on nonnegative rationals. -/
theorem pyInt_eq (q : Rat) (n : Int) (h0 : 0 ≤ q) (h1 : (n : Rat) ≤ q)
    (h2 : q < (n : Rat) + 1) : pyInt q = n := by
  rw [pyInt, if_pos h0]
  exact Int.floor_eq_iff.mpr ⟨h1, h2⟩

/-- int(6 * 0.8) = 4. -/
theorem ball_sx_easy :
    pyInt ((BALL_SPEED_X : Rat) * ball_speed_multiplier Difficulty.easy) = 4 := by
  apply pyInt_eq <;> norm_num [BALL_SPEED_X, ball_speed_multiplier]

/-- int(6 * 1.0) = 6. -/
theorem ball_sx_medium :
    pyInt ((BALL_SPEED_X : Rat) * ball_speed_multiplier Difficulty.medium) = 6 := by
  apply pyInt_eq <;> norm_num [BALL_SPEED_X, ball_speed_multiplier]

/-- int(6 * 1.3) = 7. -/
theorem ball_sx_hard :
    pyInt ((BALL_SPEED_X : Rat) * ball_speed_multiplier Difficulty.hard) = 7 := by
  apply pyInt_eq <;> norm_num [BALL_SPEED_X, ball_speed_multiplier]

/-- int(4 * 0.8) = 3. -/
theorem ball_sy_easy :
    pyInt ((BALL_SPEED_Y : Rat) * ball_speed_multiplier Difficulty.easy) = 3 := by
  apply pyInt_eq <;> norm_num [BALL_SPEED_Y, ball_speed_multiplier]

/-- int(4 * 1.0) = 4. -/
theorem ball_sy_medium :
    pyInt ((BALL_SPEED_Y : Rat) * ball_speed_multiplier Difficulty.medium) = 4 := by
  apply pyInt_eq <;> norm_num [BALL_SPEED_Y, ball_speed_multiplier]

/-- int(4 * 1.3) = 5. -/
theorem ball_sy_hard :
    pyInt ((BALL_SPEED_Y : Rat) * ball_speed_multiplier Difficulty.hard) = 5 := by
  apply pyInt_eq <;> norm_num [BALL_SPEED_Y, ball_speed_multiplier]

/-- The set_difficulty result, componentwise, for each difficulty. -/
theorem set_difficulty_speeds (b : Ball) :
    ((b.set_difficulty Difficulty.easy).speed_x = 4 ∧
      (b.set_difficulty Difficulty.easy).speed_y = 3) ∧
    ((b.set_difficulty Difficulty.medium).speed_x = 6 ∧
      (b.set_difficulty Difficulty.medium).speed_y = 4) ∧
    ((b.set_difficulty Difficulty.hard).speed_x = 7 ∧
      (b.set_difficulty Difficulty.hard).speed_y = 5) := by
  refine ⟨⟨?_, ?_⟩, ⟨?_, ?_⟩, ⟨?_, ?_⟩⟩ <;>
    simp [Ball.set_difficulty, ball_sx_easy, ball_sx_medium, ball_sx_hard,
      ball_sy_easy, ball_sy_medium, ball_sy_hard]

/-- reset takes each component from set_difficulty and only chooses a sign,
so its absolute values are exactly the set_difficulty magnitudes. -/
theorem reset_abs_speeds (b : Ball) (d : Difficulty) (kx ky : Bool) :
    |(b.reset d kx ky).speed_x| = (b.set_difficulty d).speed_x ∧
      |(b.reset d kx ky).speed_y| = (b.set_difficulty d).speed_y := by
  obtain ⟨he, hm, hh⟩ := set_difficulty_speeds b
  have hx : ∀ bb : Ball, (bb.set_difficulty d).speed_x = (b.set_difficulty d).speed_x := by
    intro bb; cases d <;> simp [Ball.set_difficulty]
  have hy : ∀ bb : Ball, (bb.set_difficulty d).speed_y = (b.set_difficulty d).speed_y := by
    intro bb; cases d <;> simp [Ball.set_difficulty]
  constructor
  · show |(Ball.reset b d kx ky).speed_x| = _
    rw [Ball.reset]
    cases kx <;> simp only [Bool.false_eq_true, if_true, if_false, reduceIte] <;>
      rw [hx] <;> cases d <;>
      · first
        | (rw [he.1]; norm_num) | (rw [hm.1]; norm_num) | (rw [hh.1]; norm_num)
  · show |(Ball.reset b d kx ky).speed_y| = _
    rw [Ball.reset]
    cases ky <;> simp only [Bool.false_eq_true, if_true, if_false, reduceIte] <;>
      rw [hy] <;> cases d <;>
      · first
        | (rw [he.2]; norm_num) | (rw [hm.2]; norm_num) | (rw [hh.2]; norm_num)

/-- A concrete ball moving up-left, for exercising set_difficulty. -/
def c2_ball : Ball := { x := 393, y := 293, speed_x := -6, speed_y := -4 }

/-- C2 counterexample: on a ball with velocity (−6, −4), set_difficulty with
the easy profile produces speed_x = 4 — not the claimed magnitude
6 × 0.8 = 4.8 (the code truncates with `int(...)`) and not the prior
negative sign (the code reassigns both components to positive values). -/
theorem C2_magnitude_and_sign_counterexample :
    (c2_ball.set_difficulty Difficulty.easy).speed_x = 4 ∧
      (c2_ball.set_difficulty Difficulty.easy).speed_y = 3 ∧
      c2_ball.speed_x < 0 ∧
      0 < (c2_ball.set_difficulty Difficulty.easy).speed_x ∧
      ((4 : Rat) ≠ (BALL_SPEED_X : Rat) * ball_speed_multiplier Difficulty.easy) := by
  have h := (set_difficulty_speeds c2_ball).1
  refine ⟨h.1, h.2, by decide, by rw [h.1]; decide, ?_⟩
  norm_num [BALL_SPEED_X, ball_speed_multiplier]

/-- C2 amended: set_difficulty reassigns both components to
`int(baseSpeed × multiplier)` — truncated toward zero and always positive,
regardless of the prior velocity — giving (4, 3) on easy, (6, 4) on medium
and (7, 5) on hard; after reset each component has exactly that truncated
magnitude, with the sign chosen by the reset's random draw. -/
theorem C2_truncated_speed_after_reset (b : Ball) (d : Difficulty) (kx ky : Bool) :
    ((b.set_difficulty Difficulty.easy).speed_x = 4 ∧
      (b.set_difficulty Difficulty.easy).speed_y = 3) ∧
    ((b.set_difficulty Difficulty.medium).speed_x = 6 ∧
      (b.set_difficulty Difficulty.medium).speed_y = 4) ∧
    ((b.set_difficulty Difficulty.hard).speed_x = 7 ∧
      (b.set_difficulty Difficulty.hard).speed_y = 5) ∧
    (0 < (b.set_difficulty d).speed_x ∧ (0 : Rat) < (b.set_difficulty d).speed_y) ∧
    (|(b.reset d kx ky).speed_x| = (b.set_difficulty d).speed_x ∧
      |(b.reset d kx ky).speed_y| = (b.set_difficulty d).speed_y) := by
  obtain ⟨he, hm, hh⟩ := set_difficulty_speeds b
  refine ⟨he, hm, hh, ?_, reset_abs_speeds b d kx ky⟩
  cases d
  · rw [he.1, he.2]; norm_num
  · rw [hm.1, hm.2]; norm_num
  · rw [hh.1, hh.2]; norm_num

/-- Unfolding rule for player_bounce when the collision fires. -/
theorem player_bounce_eq (b : Ball) (p : Paddle) (h1 : collides b p = true)
    (h2 : b.speed_x < 0) :
    player_bounce b p =
      { b with speed_x := -b.speed_x, speed_y := hit_deflect b.y p.y } := by
  unfold player_bounce
  rw [if_pos ⟨h1, h2⟩]

/-- Unfolding rule for ai_bounce when the collision fires. -/
theorem ai_bounce_eq (b : Ball) (p : Paddle) (h1 : collides b p = true)
    (h2 : 0 < b.speed_x) :
    ai_bounce b p =
      { b with speed_x := -b.speed_x, speed_y := hit_deflect b.y p.y } := by
  unfold ai_bounce
  rw [if_pos ⟨h1, h2⟩]

/-- C3: on every tick, a paddle-collision check fires exactly when the ball
box overlaps the paddle box and velocityX moves toward that paddle
(speed_x < 0 for the player's left paddle, speed_x > 0 for the AI's right
paddle); it then inverts velocityX and replaces velocityY with
(hitOffset − 0.5) × 8, hitOffset = (ball.y − paddle.y) / paddle.height,
unclamped; when the gate fails the ball's velocity is left unchanged. -/
theorem C3_collision_inverts_x_and_replaces_y (b : Ball) (p : Paddle) :
    (collides b p = true → b.speed_x < 0 →
      player_bounce b p =
        { b with speed_x := -b.speed_x
                 speed_y := ((b.y - (p.y : Rat)) / (PADDLE_HEIGHT : Rat) - 1/2) * 8 }) ∧
    (¬ (collides b p = true ∧ b.speed_x < 0) → player_bounce b p = b) ∧
    (collides b p = true → 0 < b.speed_x →
      ai_bounce b p =
        { b with speed_x := -b.speed_x
                 speed_y := ((b.y - (p.y : Rat)) / (PADDLE_HEIGHT : Rat) - 1/2) * 8 }) ∧
    (¬ (collides b p = true ∧ 0 < b.speed_x) → ai_bounce b p = b) := by
  refine ⟨fun h1 h2 => ?_, fun h => ?_, fun h1 h2 => ?_, fun h => ?_⟩
  · rw [player_bounce_eq b p h1 h2]
    rfl
  · unfold player_bounce
    rw [if_neg h]
  · rw [ai_bounce_eq b p h1 h2]
    rfl
  · unfold ai_bounce
    rw [if_neg h]

/-- pyInt of the integer-valued rationals used in the concrete witnesses. -/
theorem pyInt_300 : pyInt (300 : Rat) = 300 := by
  apply pyInt_eq <;> norm_num

/-- The concrete witness ball does overlap the concrete player paddle. -/
theorem collides_c3 :
    collides { x := 39, y := 300, speed_x := -6, speed_y := 4 }
      { x := 30, y := 255, speed := 7 } = true := by
  rw [collides, Ball.rectY]
  norm_num [pyInt_300, PADDLE_WIDTH, PADDLE_HEIGHT, BALL_SIZE]

/-- Witness for C3: a concrete overlapping, approaching ball on the player
paddle: velocityX flips from −6 to 6 and velocityY is replaced by the
deflection 0 (hitOffset exactly 0.5). -/
theorem C3_collision_witness :
    (player_bounce { x := 39, y := 300, speed_x := -6, speed_y := 4 }
        { x := 30, y := 255, speed := 7 }).speed_x = 6 ∧
      (player_bounce { x := 39, y := 300, speed_x := -6, speed_y := 4 }
        { x := 30, y := 255, speed := 7 }).speed_y = 0 := by
  have h := (C3_collision_inverts_x_and_replaces_y
      { x := 39, y := 300, speed_x := -6, speed_y := 4 }
      { x := 30, y := 255, speed := 7 }).1 collides_c3 (by decide)
  rw [h]
  constructor
  · rfl
  · show (((300 : Rat) - ((255 : Int) : Rat)) / ((PADDLE_HEIGHT : Int) : Rat) - 1/2) * 8 = 0
    norm_num [PADDLE_HEIGHT]

/-- C4: with paddle.positionY = 0 and height = 90, the deflection at
hitOffset 1.0 (ball.positionY = 90) is exactly 4 and at hitOffset 0.0
(ball.positionY = 0) exactly −4; a full collision at hitOffset 0.0 indeed
leaves the ball with velocityY = −4. -/
theorem C4_deflection_boundary_values :
    hit_deflect 90 0 = 4 ∧ hit_deflect 0 0 = -4 ∧
      (player_bounce { x := 40, y := 0, speed_x := -6, speed_y := 4 }
          { x := 30, y := 0, speed := 7 }).speed_y = -4 := by
  refine ⟨?_, ?_, ?_⟩
  · rw [hit_deflect]; norm_num [PADDLE_HEIGHT]
  · rw [hit_deflect]; norm_num [PADDLE_HEIGHT]
  · have hcol : collides { x := 40, y := 0, speed_x := -6, speed_y := 4 }
        { x := 30, y := 0, speed := 7 } = true := by
      rw [collides, Ball.rectY]
      norm_num [pyInt, PADDLE_WIDTH, PADDLE_HEIGHT, BALL_SIZE]
    rw [player_bounce_eq { x := 40, y := 0, speed_x := -6, speed_y := 4 }
        { x := 30, y := 0, speed := 7 } hcol (by decide)]
    show (((0 : Rat) - ((0 : Int) : Rat)) / ((PADDLE_HEIGHT : Int) : Rat) - 1/2) * 8 = -4
    norm_num [PADDLE_HEIGHT]

/-- The deflection is zero exactly when the ball's top edge is at the
paddle's vertical center (hitOffset = 0.5, i.e. ball.y − paddle.y = 45). -/
theorem hit_deflect_eq_zero_iff (y : Rat) (py : Int) :
    hit_deflect y py = 0 ↔ y - (py : Rat) = 45 := by
  unfold hit_deflect PADDLE_HEIGHT
  push_cast
  constructor
  · intro h
    linear_combination (90 / 8 : Rat) * h
  · intro h
    linear_combination (8 / 90 : Rat) * h

/-- pyInt of the integer-valued rational 299. -/
theorem pyInt_299 : pyInt (299 : Rat) = 299 := by
  apply pyInt_eq <;> norm_num

/-- The concrete center-hit ball overlaps the concrete AI paddle. -/
theorem collides_c5 :
    collides { x := 741, y := 300, speed_x := 6, speed_y := 4 }
      { x := 755, y := 255, speed := 5 } = true := by
  rw [collides, Ball.rectY]
  norm_num [pyInt_300, PADDLE_WIDTH, PADDLE_HEIGHT, BALL_SIZE]

/-- The concrete center-hit ball overlaps the concrete player paddle. -/
theorem collides_c5w :
    collides { x := 40, y := 299, speed_x := -6, speed_y := 3 }
      { x := 30, y := 254, speed := 7 } = true := by
  rw [collides, Ball.rectY]
  norm_num [pyInt_299, PADDLE_WIDTH, PADDLE_HEIGHT, BALL_SIZE]

/-- Ball.move leaves speed_x unchanged. -/
theorem move_speed_x (b : Ball) : b.move.speed_x = b.speed_x := rfl

/-- Ball.move vertical-velocity update as a conditional expression. -/
theorem move_speed_y (b : Ball) :
    b.move.speed_y =
      if b.y + b.speed_y ≤ 0 ∨ b.y + b.speed_y ≥ ((WINDOW_HEIGHT - BALL_SIZE : Int) : Rat)
      then -b.speed_y else b.speed_y := rfl

/-- Ball.move advances x by speed_x. -/
theorem move_x (b : Ball) : b.move.x = b.x + b.speed_x := rfl

/-- Ball.move advances y by speed_y (no clamping at the walls). -/
theorem move_y (b : Ball) : b.move.y = b.y + b.speed_y := rfl

/-- C5 counterexample: the paddle-collision response CAN zero a velocity
component.  A ball overlapping the AI paddle with its top edge 45 units
below the paddle's top (hitOffset exactly 0.5) and approaching it has its
nonzero velocityY replaced by (0.5 − 0.5) × 8 = 0. -/
theorem C5_center_hit_zeroes_velocity_y :
    ({ x := 741, y := 300, speed_x := 6, speed_y := 4 } : Ball).speed_y ≠ 0 ∧
      (ai_bounce { x := 741, y := 300, speed_x := 6, speed_y := 4 }
        { x := 755, y := 255, speed := 5 }).speed_y = 0 := by
  refine ⟨by norm_num, ?_⟩
  rw [ai_bounce_eq _ _ collides_c5 (by decide)]
  show hit_deflect (300 : Rat) (255 : Int) = 0
  rw [hit_deflect_eq_zero_iff]
  norm_num

/-- C5 amended: velocityX is never zeroed — set_difficulty and reset always
produce nonzero components and move and the collision responses preserve
velocityX up to sign — but the paddle-collision response replaces velocityY
by the deflection, which is zero exactly when the ball strikes the paddle's
center (ball.y − paddle.y = height/2 = 45). -/
theorem C5_velocity_nonzero_except_center_hit (b : Ball) (p : Paddle)
    (d : Difficulty) (kx ky : Bool) :
    ((b.set_difficulty d).speed_x ≠ 0 ∧ (b.set_difficulty d).speed_y ≠ 0) ∧
    ((b.reset d kx ky).speed_x ≠ 0 ∧ (b.reset d kx ky).speed_y ≠ 0) ∧
    (b.move.speed_x = b.speed_x ∧
      (b.move.speed_y = b.speed_y ∨ b.move.speed_y = -b.speed_y)) ∧
    ((player_bounce b p).speed_x = b.speed_x ∨
      (player_bounce b p).speed_x = -b.speed_x) ∧
    ((ai_bounce b p).speed_x = b.speed_x ∨ (ai_bounce b p).speed_x = -b.speed_x) ∧
    (collides b p = true → b.speed_x < 0 →
      ((player_bounce b p).speed_y = 0 ↔ b.y - (p.y : Rat) = 45)) ∧
    (collides b p = true → 0 < b.speed_x →
      ((ai_bounce b p).speed_y = 0 ↔ b.y - (p.y : Rat) = 45)) := by
  obtain ⟨he, hm, hh⟩ := set_difficulty_speeds b
  obtain ⟨hax, hay⟩ := reset_abs_speeds b d kx ky
  refine ⟨?_, ?_, ?_, ?_, ?_, ?_, ?_⟩
  · cases d
    · rw [he.1, he.2]; norm_num
    · rw [hm.1, hm.2]; norm_num
    · rw [hh.1, hh.2]; norm_num
  · constructor
    · intro h0
      rw [h0, abs_zero] at hax
      cases d
      · rw [he.1] at hax; norm_num at hax
      · rw [hm.1] at hax; norm_num at hax
      · rw [hh.1] at hax; norm_num at hax
    · intro h0
      rw [h0, abs_zero] at hay
      cases d
      · rw [he.2] at hay; norm_num at hay
      · rw [hm.2] at hay; norm_num at hay
      · rw [hh.2] at hay; norm_num at hay
  · refine ⟨rfl, ?_⟩
    rw [move_speed_y]
    split
    · right; rfl
    · left; rfl
  · unfold player_bounce
    split
    · right; rfl
    · left; rfl
  · unfold ai_bounce
    split
    · right; rfl
    · left; rfl
  · intro h1 h2
    rw [player_bounce_eq b p h1 h2]
    exact hit_deflect_eq_zero_iff b.y p.y
  · intro h1 h2
    rw [ai_bounce_eq b p h1 h2]
    exact hit_deflect_eq_zero_iff b.y p.y

/-- Witness for the amended C5 at a concrete player-paddle center hit. -/
theorem C5_velocity_nonzero_except_center_hit_witness :
    (player_bounce { x := 40, y := 299, speed_x := -6, speed_y := 3 }
      { x := 30, y := 254, speed := 7 }).speed_y = 0 :=
  ((C5_velocity_nonzero_except_center_hit
      { x := 40, y := 299, speed_x := -6, speed_y := 3 }
      { x := 30, y := 254, speed := 7 }
      Difficulty.easy true true).2.2.2.2.2.1 collides_c5w
    (by decide)).mpr (by norm_num)

/-- C6: Ball.move advances the position by the velocity with no clamping;
velocityY's sign is inverted exactly when the resulting positionY is ≤ 0 or
≥ fieldHeight − size (the trigger is exactly the boundary values), and a
single move call negates velocityY at most once. -/
theorem C6_wall_reflection (b : Ball) :
    b.move.x = b.x + b.speed_x ∧ b.move.y = b.y + b.speed_y ∧
    ((b.y + b.speed_y ≤ 0 ∨
        b.y + b.speed_y ≥ ((WINDOW_HEIGHT - BALL_SIZE : Int) : Rat)) →
      b.move.speed_y = -b.speed_y) ∧
    (¬ (b.y + b.speed_y ≤ 0 ∨
        b.y + b.speed_y ≥ ((WINDOW_HEIGHT - BALL_SIZE : Int) : Rat)) →
      b.move.speed_y = b.speed_y) := by
  refine ⟨move_x b, move_y b, fun h => ?_, fun h => ?_⟩
  · rw [move_speed_y, if_pos h]
  · rw [move_speed_y, if_neg h]

/-- Witness for C6: a ball crossing the top wall has its vertical velocity
inverted from −4 to 4. -/
theorem C6_wall_reflection_witness :
    (Ball.move { x := 100, y := 2, speed_x := 6, speed_y := -4 }).speed_y = 4 := by
  have h := (C6_wall_reflection
      { x := 100, y := 2, speed_x := 6, speed_y := -4 }).2.2.1 (Or.inl (by norm_num))
  rw [h]
  show -(-4 : Rat) = 4
  norm_num

/-- ScoreBoard.update_score true only increments the player counter. -/
theorem update_score_true (s : ScoreBoard) :
    s.update_score true = { s with player_score := s.player_score + 1 } := rfl

/-- ScoreBoard.update_score false only increments the AI counter. -/
theorem update_score_false (s : ScoreBoard) :
    s.update_score false = { s with ai_score := s.ai_score + 1 } := rfl

/-- C7: per tick the scoring checks are an if/elif on the ball's horizontal
position, so at most one of them fires: the left exit increments only the
opponent counter by one, the right exit only the player counter by one,
each resetting the ball; otherwise nothing changes; and the two guards can
never hold together. -/
theorem C7_scoring_mutually_exclusive (g : GameState) (kx ky : Bool) :
    (g.ball.x < 0 →
      (scoring_step g kx ky).scoreboard.player_score = g.scoreboard.player_score ∧
      (scoring_step g kx ky).scoreboard.ai_score = g.scoreboard.ai_score + 1 ∧
      (scoring_step g kx ky).ball = g.ball.reset g.difficulty kx ky) ∧
    (g.ball.x > WINDOW_WIDTH →
      (scoring_step g kx ky).scoreboard.player_score = g.scoreboard.player_score + 1 ∧
      (scoring_step g kx ky).scoreboard.ai_score = g.scoreboard.ai_score ∧
      (scoring_step g kx ky).ball = g.ball.reset g.difficulty kx ky) ∧
    (¬ (g.ball.x < 0 ∨ g.ball.x > WINDOW_WIDTH) → scoring_step g kx ky = g) ∧
    ¬ (g.ball.x < 0 ∧ g.ball.x > WINDOW_WIDTH) ∧
    ((scoring_step g kx ky).scoreboard.player_score = g.scoreboard.player_score ∨
      (scoring_step g kx ky).scoreboard.ai_score = g.scoreboard.ai_score) := by
  have hW : (0 : Int) < WINDOW_WIDTH := by norm_num [WINDOW_WIDTH]
  refine ⟨fun hx => ?_, fun hx => ?_, fun hx => ?_, fun hc => ?_, ?_⟩
  · rw [scoring_step, if_pos hx]
    exact ⟨rfl, rfl, rfl⟩
  · rw [scoring_step, if_neg (by omega), if_pos hx]
    exact ⟨rfl, rfl, rfl⟩
  · push_neg at hx
    rw [scoring_step, if_neg (by omega), if_neg (by omega)]
  · omega
  · by_cases h1 : g.ball.x < 0
    · left
      rw [scoring_step, if_pos h1]
      rfl
    · by_cases h2 : g.ball.x > WINDOW_WIDTH
      · right
        rw [scoring_step, if_neg h1, if_pos h2]
        rfl
      · left
        rw [scoring_step, if_neg h1, if_neg h2]

/-- A concrete playing state whose ball has crossed the left edge. -/
def c7_state : GameState :=
  { game_state := GState.playing
    difficulty := Difficulty.medium
    player_paddle := initial_player_paddle
    ai_paddle := { x := 755, y := 255, speed := 5 }
    ball := { x := -3, y := 293, speed_x := -6, speed_y := 4 }
    scoreboard := { player_score := 2, ai_score := 4 } }

/-- Witness for C7: the ball at x = −3 yields exactly one opponent point. -/
theorem C7_scoring_mutually_exclusive_witness :
    (scoring_step c7_state true true).scoreboard.player_score = 2 ∧
      (scoring_step c7_state true true).scoreboard.ai_score = 5 := by
  have h := (C7_scoring_mutually_exclusive c7_state true true).1 (by decide)
  exact ⟨h.1.trans rfl, h.2.1.trans rfl⟩

/-- C8: whenever the ball's horizontal velocity points away from the AI's
right-side paddle (speed_x < 0), AIPlayer.update leaves the paddle
unchanged, whatever the random draw and the reaction probability. -/
theorem C8_ai_ignores_receding_ball (p : Paddle) (b : Ball) (reaction r : Rat)
    (h : b.speed_x < 0) : ai_update p b reaction r = p := by
  simp only [ai_update]
  rw [if_neg (by omega : ¬ b.speed_x > 0)]

/-- Witness for C8 at a concrete receding ball and an always-reacting draw. -/
theorem C8_ai_ignores_receding_ball_witness :
    ai_update { x := 755, y := 255, speed := 5 }
        { x := 400, y := 293, speed_x := -6, speed_y := 4 } (8/10) 0 =
      { x := 755, y := 255, speed := 5 } :=
  C8_ai_ignores_receding_ball _ _ _ _ (by decide)

/-- int(7 * 0.5) = 3. -/
theorem ai_paddle_speed_easy :
    pyInt ((PADDLE_SPEED : Rat) * ai_speed Difficulty.easy) = 3 := by
  apply pyInt_eq <;> norm_num [PADDLE_SPEED, ai_speed]

/-- int(7 * 0.8) = 5. -/
theorem ai_paddle_speed_medium :
    pyInt ((PADDLE_SPEED : Rat) * ai_speed Difficulty.medium) = 5 := by
  apply pyInt_eq <;> norm_num [PADDLE_SPEED, ai_speed]

/-- int(7 * 1.2) = 8. -/
theorem ai_paddle_speed_hard :
    pyInt ((PADDLE_SPEED : Rat) * ai_speed Difficulty.hard) = 8 := by
  apply pyInt_eq <;> norm_num [PADDLE_SPEED, ai_speed]

/-- C9: start_game (the Menu select transition) enters the playing state,
stores the chosen difficulty, zeroes both counters, recenters the ball at
(393, 293), gives the ball the profile's exact truncated speed magnitudes,
rescales the AI paddle's speed to int(7 × aiSpeedMultiplier) (3 / 5 / 8),
and leaves the player's paddle alone. -/
theorem C9_start_game_restarts_match (g : GameState) (d : Difficulty) (kx ky : Bool) :
    (start_game g d kx ky).game_state = GState.playing ∧
    (start_game g d kx ky).difficulty = d ∧
    (start_game g d kx ky).scoreboard.player_score = 0 ∧
    (start_game g d kx ky).scoreboard.ai_score = 0 ∧
    (start_game g d kx ky).ball.x = 393 ∧
    (start_game g d kx ky).ball.y = 293 ∧
    |(start_game g d kx ky).ball.speed_x| = (g.ball.set_difficulty d).speed_x ∧
    |(start_game g d kx ky).ball.speed_y| = (g.ball.set_difficulty d).speed_y ∧
    ((start_game g Difficulty.easy kx ky).ai_paddle.speed = 3 ∧
      (start_game g Difficulty.medium kx ky).ai_paddle.speed = 5 ∧
      (start_game g Difficulty.hard kx ky).ai_paddle.speed = 8) ∧
    (start_game g d kx ky).player_paddle = g.player_paddle := by
  refine ⟨rfl, rfl, rfl, rfl, ?_, ?_, ?_, ?_, ?_, rfl⟩
  · show (WINDOW_WIDTH / 2 - BALL_SIZE / 2 : Int) = 393
    decide
  · show ((WINDOW_HEIGHT / 2 - BALL_SIZE / 2 : Int) : Rat) = 293
    rw [show (WINDOW_HEIGHT / 2 - BALL_SIZE / 2 : Int) = 293 by decide]
    norm_num
  · show |((g.ball.set_difficulty d).reset d kx ky).speed_x| = _
    rw [(reset_abs_speeds (g.ball.set_difficulty d) d kx ky).1]
    cases d <;> rfl
  · show |((g.ball.set_difficulty d).reset d kx ky).speed_y| = _
    rw [(reset_abs_speeds (g.ball.set_difficulty d) d kx ky).2]
    cases d <;> rfl
  · exact ⟨ai_paddle_speed_easy, ai_paddle_speed_medium, ai_paddle_speed_hard⟩

end Pong
